import Mathlib

/-!
# Shallow embedding of `micromentor/src/training/train_model.py`

The script defines one class, `MicroMentorTrainer`, orchestrating a Keras
training pipeline: configuration load, model assembly, synthetic data
generation, training with callbacks, TFLite edge conversion, persistence and
a latency benchmark.  We embed the script's own logic faithfully; calls into
the TensorFlow/Keras framework that the script merely configures (weight
initialisation, the gradient step of `fit`, the byte output of serialisers)
are abstracted as parameters, while the framework behaviour the script relies
on structurally (only trainable weights are updated by `fit`) is embedded
explicitly.  Machine floats that the script uses only as opaque data (random
tensors, weights, wall-clock readings) are modelled as rationals.
-/

namespace MicroMentor

/-- Activation functions used by the script's layers. -/
inductive Activation where
  | relu
  | softmax
  | sigmoid
deriving DecidableEq, Repr

/-- A framework variable (weight): a numeric value together with the
trainable flag the framework consults during `fit`. -/
structure Variable where
  value : ℚ
  trainable : Bool
deriving DecidableEq, Repr

/-- The pretrained backbone returned by
`tf.keras.applications.MobileNetV2(input_shape=(224,224,3), include_top=False, weights='imagenet')`. -/
structure BaseModel where
  input_shape : List Nat
  include_top : Bool
  weights_source : String
  weights : List Variable
  trainable : Bool
deriving DecidableEq, Repr

/-- `tf.keras.applications.MobileNetV2(...)`: the pretrained weights
themselves are downloaded by the framework, so they are a parameter; freshly
constructed Keras layers are trainable. -/
def MobileNetV2 (input_shape : List Nat) (include_top : Bool)
    (weights : String) (pretrained : List ℚ) : BaseModel :=
  { input_shape := input_shape
    include_top := include_top
    weights_source := weights
    weights := pretrained.map (fun w => ⟨w, true⟩)
    trainable := true }

/-- `base_model.trainable = False`: setting a Keras layer's `trainable`
attribute marks every variable it owns (non-)trainable. -/
def BaseModel.setTrainable (bm : BaseModel) (b : Bool) : BaseModel :=
  { bm with
    trainable := b
    weights := bm.weights.map (fun v => { v with trainable := b }) }

/-- Layers of the functional graph built in `create_model`, in application
order after the `keras.Input`. -/
inductive LayerSpec where
  | preprocess_input
  | base_application (training : Bool)
  | global_average_pooling2d
  | dense (units : Nat) (activation : Activation)
  | dropout (rate : ℚ)
deriving DecidableEq, Repr

/-- One named output head of the functional model: per-sample shape is
`(units,)`. -/
structure OutputHead where
  name : String
  units : Nat
  activation : Activation
deriving DecidableEq, Repr

/-- The compile configuration passed to `self.model.compile(...)`. -/
structure CompileConfig where
  optimizer : String
  learning_rate : ℚ
  loss : List (String × String)
  metrics : List (String × List String)
deriving DecidableEq, Repr

/-- The composed `keras.Model(inputs, [emotion_output, fatigue_output])`. -/
structure KerasModel where
  input_shape : List Nat
  base : BaseModel
  head_layers : List LayerSpec
  head_variables : List Variable
  outputs : List OutputHead
  compile_config : Option CompileConfig
deriving DecidableEq, Repr

instance : Inhabited KerasModel :=
  ⟨{ input_shape := [], base := MobileNetV2 [] false "" [],
     head_layers := [], head_variables := [], outputs := [],
     compile_config := none }⟩

/-- A primitive JSON value, the only kind the configuration file holds. -/
inductive JPrim where
  | jstr (s : String)
  | jnum (n : Int)
deriving DecidableEq, Repr

/-- A flat JSON object, as produced by `json.load` on the configuration
file: an ordered association of string keys to primitive values. -/
abbrev JObject := List (String × JPrim)

/-- Dictionary lookup `obj[k]` (first matching key). -/
def JObject.get (o : JObject) (k : String) : Option JPrim :=
  (o.find? (fun kv => kv.1 = k)).map (fun kv => kv.2)

/-- Contents of a file in the modelled file system: either parsed JSON
(the configuration file) or opaque bytes (model artifacts). -/
inductive FileContent where
  | jsonFile (o : JObject)
  | binFile (bytes : List Nat)
deriving DecidableEq, Repr

/-- The file system: a path-to-content map with last-write-wins lookup. -/
abbrev FS := List (String × FileContent)

/-- Write (create or overwrite) a file. -/
def FS.write (fs : FS) (path : String) (c : FileContent) : FS :=
  (path, c) :: fs

/-- Read a file; `none` models the `FileNotFoundError` of `open`. -/
def FS.read (fs : FS) (path : String) : Option FileContent :=
  (fs.find? (fun pc => pc.1 = path)).map (fun pc => pc.2)

/-- `os.path.join(a, b)` for the path shapes the script uses
(no trailing separator on `a`, relative `b`). -/
def os_path_join (a b : String) : String := a ++ "/" ++ b

/-- The Keras callbacks the script constructs in `train`. -/
inductive Callback where
  | earlyStopping (monitor : String) (patience : Nat) (restore_best_weights : Bool)
  | reduceLROnPlateau (monitor : String) (factor : ℚ) (patience : Nat)
deriving DecidableEq, Repr

/-- The `History` object returned by `model.fit`: the per-epoch metric
record together with the parameters of the fit call that produced it. -/
structure History where
  epochs : Nat
  batch_size : Nat
  callbacks : List Callback
  metrics : List (String × List ℚ)
deriving DecidableEq, Repr

/-- The state of a `MicroMentorTrainer` instance: `self.config`,
`self.model`, `self.history`. -/
structure TrainerState where
  config : JObject
  model : Option KerasModel
  history : Option History
deriving Repr

/-- `MicroMentorTrainer.__init__`: open the configuration file and
`json.load` it; `self.model = None`, `self.history = None`.  A missing or
non-JSON file propagates as an exception, modelled by `none`. -/
def MicroMentorTrainer.init (fs : FS)
    (config_path : String := "config/training_config.json") :
    Option TrainerState :=
  match fs.read config_path with
  | some (.jsonFile cfg) => some { config := cfg, model := none, history := none }
  | _ => none

/-- `MicroMentorTrainer.create_model`: build the frozen MobileNetV2
backbone, the pooling + dense + dropout head, the two named output heads,
compile, store in `self.model` and return it.  The framework-initialised
weights (pretrained backbone, fresh head) are parameters. -/
def MicroMentorTrainer.create_model (st : TrainerState)
    (pretrained head_init : List ℚ) : TrainerState × KerasModel :=
  let base_model := MobileNetV2 [224, 224, 3] false "imagenet" pretrained
  let base_model := base_model.setTrainable false
  let model : KerasModel :=
    { input_shape := [224, 224, 3]
      base := base_model
      head_layers :=
        [ .preprocess_input
        , .base_application false
        , .global_average_pooling2d
        , .dense 128 .relu
        , .dropout (1/5) ]
      head_variables := head_init.map (fun w => ⟨w, true⟩)
      outputs :=
        [ { name := "emotion", units := 5, activation := .softmax }
        , { name := "fatigue", units := 1, activation := .sigmoid } ]
      compile_config := some
        { optimizer := "Adam"
          learning_rate := 1/1000
          loss :=
            [ ("emotion", "categorical_crossentropy")
            , ("fatigue", "binary_crossentropy") ]
          metrics :=
            [ ("emotion", ["accuracy"])
            , ("fatigue", ["accuracy"]) ] } }
  ({ st with model := some model }, model)

/-- A source of random draws, abstracting NumPy's global generator:
`rand` yields the successive uniform floats of `np.random.rand`, `randint`
the successive draws of `np.random.randint` (bound applied at use). -/
structure RNG where
  rand : Nat → ℚ
  randint : Nat → Nat

/-- A synthetic image tensor of shape `(224, 224, 3)`. -/
def Image := Fin 224 → Fin 224 → Fin 3 → ℚ

/-- `np.random.rand(n, 224, 224, 3)`: `n` image tensors of successive
uniform draws. -/
def np_random_images (rng : RNG) (n : Nat) : List Image :=
  (List.range n).map
    (fun i a b c => rng.rand (((i * 224 + a.1) * 224 + b.1) * 3 + c.1))

/-- `tf.keras.utils.to_categorical(k, numClasses)`: the one-hot row of
length `numClasses` with a 1 at index `k`. -/
def to_categorical (k numClasses : Nat) : List ℚ :=
  (List.range numClasses).map (fun j => if j = k then 1 else 0)

/-- `num_samples = 1000`, hardcoded in `prepare_data`. -/
def num_samples : Nat := 1000

/-- `split_idx = int(0.8 * num_samples)`: `0.8 * 1000` is exactly `800.0`
in IEEE double arithmetic, so the truncation yields 800. -/
def split_idx : Nat := 8 * num_samples / 10

/-- The label dictionary of emotion and fatigue labels returned, for the
train and validation halves alike, by `prepare_data`. -/
structure LabelDict where
  emotion : List (List ℚ)
  fatigue : List (List ℚ)

/-- `MicroMentorTrainer.prepare_data`: synthetic images, one-hot emotion
labels over 5 classes, scalar fatigue labels, split 80/20 by index
slicing. -/
def MicroMentorTrainer.prepare_data (st : TrainerState) (rng : RNG) :
    TrainerState × ((List Image × LabelDict) × (List Image × LabelDict)) :=
  let X := np_random_images rng num_samples
  let emotions := (List.range num_samples).map (fun i => rng.randint i % 5)
  let y_emotion := emotions.map (fun e => to_categorical e 5)
  let y_fatigue :=
    (List.range num_samples).map
      (fun i => [rng.rand (num_samples * (224 * 224 * 3) + i)])
  (st,
   ((X.take split_idx,
     { emotion := y_emotion.take split_idx, fatigue := y_fatigue.take split_idx }),
    (X.drop split_idx,
     { emotion := y_emotion.drop split_idx, fatigue := y_fatigue.drop split_idx })))

/-- A single optimizer step as seen by one variable: Keras `fit` applies the
(framework-computed) update only to trainable weights. -/
def Variable.applyUpdate (upd : ℚ → ℚ) (v : Variable) : Variable :=
  if v.trainable then { v with value := upd v.value } else v

/-- `model.fit(...)`: the framework's training loop.  The numeric effect of
the gradient steps is abstracted as `upd` and the recorded metric curves as
`metrics`; the structural contract embedded here is that only trainable
weights are updated, and the `History` records the call's parameters. -/
def KerasModel.fit (m : KerasModel) (upd : ℚ → ℚ)
    (metrics : List (String × List ℚ)) (epochs batch_size : Nat)
    (callbacks : List Callback) : KerasModel × History :=
  ({ m with
      base := { m.base with
                weights := m.base.weights.map (Variable.applyUpdate upd) }
      head_variables := m.head_variables.map (Variable.applyUpdate upd) },
   { epochs := epochs, batch_size := batch_size, callbacks := callbacks,
     metrics := metrics })

/-- The callback list constructed inside `MicroMentorTrainer.train`. -/
def trainCallbacks : List Callback :=
  [ .earlyStopping "val_loss" 3 true
  , .reduceLROnPlateau "val_loss" (1/2) 2 ]

/-- `MicroMentorTrainer.train`: create the model if absent, prepare data,
fit with the two callbacks, `batch_size=32` and the `epochs` argument
(default 10); store and return the history. -/
def MicroMentorTrainer.train (st : TrainerState) (rng : RNG) (upd : ℚ → ℚ)
    (metrics : List (String × List ℚ)) (pretrained head_init : List ℚ)
    (epochs : Nat := 10) : TrainerState × History :=
  let stm :=
    match st.model with
    | none => MicroMentorTrainer.create_model st pretrained head_init
    | some m => (st, m)
  let prepared := MicroMentorTrainer.prepare_data stm.1 rng
  let callbacks := trainCallbacks
  let fitted := stm.2.fit upd metrics epochs 32 callbacks
  ({ prepared.1 with model := some fitted.1, history := some fitted.2 }, fitted.2)

/-- The converter configuration set in `optimize_for_edge`:
`converter.optimizations` and `converter.target_spec.supported_types`. -/
structure EdgeConverterConfig where
  optimizations : List String
  supported_types : List String
deriving DecidableEq, Repr

/-- `MicroMentorTrainer.optimize_for_edge`: convert `self.model` with
default optimizations and float16 target, write the bytes under the
configured output path, return the path.  `convert` abstracts the
framework's `TFLiteConverter.convert`; `none` models the exceptions raised
when `self.model` is `None` or the configuration lacks a string
`output_path`. -/
def MicroMentorTrainer.optimize_for_edge (st : TrainerState) (fs : FS)
    (convert : KerasModel → EdgeConverterConfig → List Nat) :
    Option (TrainerState × FS × String) :=
  match st.model with
  | none => none
  | some m =>
    let cfg : EdgeConverterConfig :=
      { optimizations := ["DEFAULT"], supported_types := ["float16"] }
    let tflite_model := convert m cfg
    match st.config.get "output_path" with
    | some (.jstr p) =>
      let tflite_path := os_path_join p "micromentor_edge.tflite"
      some (st, fs.write tflite_path (.binFile tflite_model), tflite_path)
    | _ => none

/-- `MicroMentorTrainer.save_model`: persist `self.model` as an `.h5` file
and as a saved-model directory under the configured output path.  The byte
outputs of the framework serialisers are the parameters `save_h5` and
`save_saved_model`. -/
def MicroMentorTrainer.save_model (st : TrainerState) (fs : FS)
    (save_h5 save_saved_model : KerasModel → List Nat) :
    Option (TrainerState × FS) :=
  match st.model, st.config.get "output_path" with
  | some m, some (.jstr p) =>
    let keras_path := os_path_join p "micromentor_model.h5"
    let fs1 := fs.write keras_path (.binFile (save_h5 m))
    let tfjs_path := os_path_join p "tfjs"
    some (st, fs1.write tfjs_path (.binFile (save_saved_model m)))
  | _, _ => none

/-- Warm-up iteration count in `evaluate_latency` (`for _ in range(10)`). -/
def num_warmup : Nat := 10

/-- Measured iteration count in `evaluate_latency` (`for _ in range(100)`). -/
def num_measure : Nat := 100

/-- The `latencies` list built in `evaluate_latency`: for each measured
iteration, `(time.time() - start) * 1000`.  The wall clock is modelled as
the sequence `clock` of successive `time.time()` readings; reading `2*i`
is the `start` of iteration `i` and reading `2*i+1` its end. -/
def latency_measurements (clock : Nat → ℚ) : List ℚ :=
  (List.range num_measure).map
    (fun i => (clock (2 * i + 1) - clock (2 * i)) * 1000)

/-- `MicroMentorTrainer.evaluate_latency`: 10 untimed warm-up inferences,
then 100 timed single-sample inferences, returning `np.mean(latencies)`.
`none` models the exception when `self.model` is `None`. -/
def MicroMentorTrainer.evaluate_latency (st : TrainerState)
    (clock : Nat → ℚ) : Option (TrainerState × ℚ) :=
  match st.model with
  | none => none
  | some _ =>
    let _warmup_runs := List.range num_warmup
    let latencies := latency_measurements clock
    some (st, latencies.sum / (latencies.length : ℚ))

/-- The dictionary literal `config` in `main`. -/
def main_config : JObject :=
  [ ("output_path", .jstr "models")
  , ("epochs", .jnum 5)
  , ("batch_size", .jnum 32) ]

/-- The path `main` writes the configuration to, equal to the default
`config_path` of `MicroMentorTrainer.__init__`. -/
def config_file_path : String := "config/training_config.json"

/-- The `json.dump(config, f)` step of `main`. -/
def main_write_config (fs : FS) : FS :=
  fs.write config_file_path (.jsonFile main_config)

/-- `main` up to trainer construction: write the configuration file, then
build `MicroMentorTrainer()` with the default path. -/
def main_trainer (fs : FS) : Option TrainerState :=
  MicroMentorTrainer.init (main_write_config fs)

/-! ## Helper lemmas -/

/-- A frozen variable is untouched by an optimizer step. -/
theorem Variable.applyUpdate_frozen (upd : ℚ → ℚ) (v : Variable)
    (h : v.trainable = false) : Variable.applyUpdate upd v = v := by
  simp [Variable.applyUpdate, h]

/-- Every backbone weight of the model built by `create_model` carries
`trainable = false`. -/
theorem create_model_base_weights_frozen (st : TrainerState)
    (pretrained head_init : List ℚ) :
    ∀ v ∈ (MicroMentorTrainer.create_model st pretrained head_init).2.base.weights,
      v.trainable = false := by
  intro v hv
  simp only [MicroMentorTrainer.create_model, MobileNetV2, BaseModel.setTrainable,
    List.map_map, List.mem_map, Function.comp] at hv
  obtain ⟨w, -, rfl⟩ := hv
  rfl

/-! ## Claim theorems -/

/-- C1: `create_model` produces a model with exactly two named outputs,
`emotion` and `fatigue`; the per-sample output shapes are `(5,)` and `(1,)`,
the first from a 5-way softmax head, the second from a scalar sigmoid
head. -/
theorem create_model_two_named_outputs (st : TrainerState)
    (pretrained head_init : List ℚ) :
    ((MicroMentorTrainer.create_model st pretrained head_init).2.outputs.length = 2) ∧
    ((MicroMentorTrainer.create_model st pretrained head_init).2.outputs =
      [ { name := "emotion", units := 5, activation := .softmax }
      , { name := "fatigue", units := 1, activation := .sigmoid } ]) :=
  ⟨rfl, rfl⟩

/-- C2: `prepare_data` splits images, emotion labels and fatigue labels by
index slicing at `split_idx = int(0.8 * num_samples)`; each train/validation
pair of lengths sums to the requested `num_samples`, and the split is exactly
80/20 (800 and 200 of the 1000 requested samples). -/
theorem prepare_data_split_80_20 (st : TrainerState) (rng : RNG) :
    ((MicroMentorTrainer.prepare_data st rng).2.1.1.length = split_idx) ∧
    ((MicroMentorTrainer.prepare_data st rng).2.2.1.length = num_samples - split_idx) ∧
    ((MicroMentorTrainer.prepare_data st rng).2.1.1.length +
      (MicroMentorTrainer.prepare_data st rng).2.2.1.length = num_samples) ∧
    ((MicroMentorTrainer.prepare_data st rng).2.1.2.emotion.length +
      (MicroMentorTrainer.prepare_data st rng).2.2.2.emotion.length = num_samples) ∧
    ((MicroMentorTrainer.prepare_data st rng).2.1.2.fatigue.length +
      (MicroMentorTrainer.prepare_data st rng).2.2.2.fatigue.length = num_samples) ∧
    split_idx = 800 ∧ num_samples - split_idx = 200 ∧ num_samples = 1000 := by
  refine ⟨?_, ?_, ?_, ?_, ?_, rfl, rfl, rfl⟩ <;>
    simp [MicroMentorTrainer.prepare_data, np_random_images, split_idx, num_samples]

/-- C3: `create_model` freezes all backbone weights (every weight of the
pretrained backbone is non-trainable), and training leaves every backbone
weight exactly as it was: after `train` the stored model's backbone weight
list equals the one `create_model` produced. -/
theorem backbone_frozen_and_preserved (st : TrainerState) (p h : List ℚ)
    (rng : RNG) (upd : ℚ → ℚ) (ms : List (String × List ℚ)) (e : Nat) :
    (∀ v ∈ (MicroMentorTrainer.create_model st p h).2.base.weights,
      v.trainable = false) ∧
    ((MicroMentorTrainer.train (MicroMentorTrainer.create_model st p h).1
        rng upd ms p h e).1.model.map (fun m => m.base.weights) =
      some (MicroMentorTrainer.create_model st p h).2.base.weights) := by
  refine ⟨create_model_base_weights_frozen st p h, ?_⟩
  simp [MicroMentorTrainer.train, MicroMentorTrainer.create_model,
    MicroMentorTrainer.prepare_data, KerasModel.fit, MobileNetV2,
    BaseModel.setTrainable, Variable.applyUpdate, List.map_map, Function.comp]

/-- C4: `train` passes exactly two callbacks to `fit`: an early-stopping
callback on `val_loss` that restores the best weights, and a
learning-rate-reduction callback with factor 0.5 whose plateau window is
strictly shorter than the early-stopping one. -/
theorem train_two_callbacks (st : TrainerState) (rng : RNG) (upd : ℚ → ℚ)
    (ms : List (String × List ℚ)) (p h : List ℚ) (e : Nat) :
    ((MicroMentorTrainer.train st rng upd ms p h e).2.callbacks = trainCallbacks) ∧
    trainCallbacks.length = 2 ∧
    (∃ pe pr : Nat,
      trainCallbacks =
        [ .earlyStopping "val_loss" pe true
        , .reduceLROnPlateau "val_loss" (1/2) pr ] ∧ pr < pe) := by
  refine ⟨?_, rfl, 3, 2, rfl, by norm_num⟩
  obtain ⟨c, mo, hi⟩ := st
  cases mo <;> rfl

/-- C5: `evaluate_latency` performs 10 warm-up inferences then exactly 100
measured ones; the returned value is the mean of exactly those 100 measured
wall-clock durations, and it is non-negative whenever the wall clock is
monotone. -/
theorem evaluate_latency_avg_nonneg (st : TrainerState) (clock : Nat → ℚ)
    (hmodel : st.model.isSome = true)
    (hclock : ∀ i, clock i ≤ clock (i + 1)) :
    num_warmup = 10 ∧
    num_measure = 100 ∧
    (latency_measurements clock).length = num_measure ∧
    ((MicroMentorTrainer.evaluate_latency st clock).map (fun r => r.2) =
      some ((latency_measurements clock).sum /
            ((latency_measurements clock).length : ℚ))) ∧
    0 ≤ (latency_measurements clock).sum /
          ((latency_measurements clock).length : ℚ) := by
  obtain ⟨m, hm⟩ := Option.isSome_iff_exists.mp hmodel
  refine ⟨rfl, rfl, by simp [latency_measurements], ?_, ?_⟩
  · simp [MicroMentorTrainer.evaluate_latency, hm]
  · apply div_nonneg
    · apply List.sum_nonneg
      intro x hx
      simp only [latency_measurements, List.mem_map, List.mem_range] at hx
      obtain ⟨i, -, rfl⟩ := hx
      have := hclock (2 * i)
      nlinarith
    · positivity

/-- Closed witness for C5: a constant clock is monotone and the theorem's
conclusion holds for it. -/
theorem evaluate_latency_avg_nonneg_witness :
    0 ≤ (latency_measurements (fun _ => (0 : ℚ))).sum /
          ((latency_measurements (fun _ => (0 : ℚ))).length : ℚ) :=
  (evaluate_latency_avg_nonneg ⟨[], some default, none⟩ (fun _ => 0)
    rfl (fun _ => le_refl 0)).2.2.2.2

/-- C7: the configuration load is a round trip.  `main` writes the JSON
configuration (keys `output_path`, `epochs`, `batch_size`) to the very path
`MicroMentorTrainer.__init__` reads by default, so the configuration the
trainer loads equals the one `main` wrote, whatever the file system held
before. -/
theorem main_config_round_trip (fs : FS) :
    ((main_trainer fs).map (fun st => st.config) = some main_config) ∧
    JObject.get main_config "output_path" = some (.jstr "models") ∧
    JObject.get main_config "epochs" = some (.jnum 5) ∧
    JObject.get main_config "batch_size" = some (.jnum 32) := by
  refine ⟨?_, rfl, rfl, rfl⟩
  rfl

/-- C8: `self.config` is set once by `__init__` and never modified: every
trainer operation returns a state whose `config` equals the input state's
`config` (operations that can raise are compared on their successful
result). -/
theorem config_loaded_once_immutable (st : TrainerState) (fs : FS) (rng : RNG)
    (upd : ℚ → ℚ) (ms : List (String × List ℚ)) (p h : List ℚ) (e : Nat)
    (convert : KerasModel → EdgeConverterConfig → List Nat)
    (s1 s2 : KerasModel → List Nat) (clock : Nat → ℚ) :
    ((MicroMentorTrainer.create_model st p h).1.config = st.config) ∧
    ((MicroMentorTrainer.prepare_data st rng).1.config = st.config) ∧
    ((MicroMentorTrainer.train st rng upd ms p h e).1.config = st.config) ∧
    ((MicroMentorTrainer.optimize_for_edge st fs convert).elim True
      (fun r => r.1.config = st.config)) ∧
    ((MicroMentorTrainer.save_model st fs s1 s2).elim True
      (fun r => r.1.config = st.config)) ∧
    ((MicroMentorTrainer.evaluate_latency st clock).elim True
      (fun r => r.1.config = st.config)) := by
  obtain ⟨c, mo, hi⟩ := st
  refine ⟨rfl, rfl, ?_, ?_, ?_, ?_⟩
  · cases mo <;> rfl
  · cases mo with
    | none => trivial
    | some m =>
      rcases hg : JObject.get c "output_path" with _ | pr
      · simp [MicroMentorTrainer.optimize_for_edge, hg]
      · cases pr <;> simp [MicroMentorTrainer.optimize_for_edge, hg]
  · cases mo with
    | none => trivial
    | some m =>
      rcases hg : JObject.get c "output_path" with _ | pr
      · simp [MicroMentorTrainer.save_model, hg]
      · cases pr <;> simp [MicroMentorTrainer.save_model, hg]
  · cases mo <;> trivial

/-- C10: calling `train` with `self.model = None` does not fail: the model
is first assembled via `create_model`, and afterwards `self.model` holds a
compiled model while `self.history` holds the returned training history. -/
theorem train_without_model_succeeds (st : TrainerState) (rng : RNG)
    (upd : ℚ → ℚ) (ms : List (String × List ℚ)) (p h : List ℚ) (e : Nat)
    (hm : st.model = none) :
    (∃ m, (MicroMentorTrainer.train st rng upd ms p h e).1.model = some m ∧
      m.compile_config.isSome = true) ∧
    ((MicroMentorTrainer.train st rng upd ms p h e).1.history =
      some (MicroMentorTrainer.train st rng upd ms p h e).2) := by
  obtain ⟨c, mo, hi⟩ := st
  cases mo with
  | some m => exact Option.noConfusion hm
  | none => exact ⟨⟨_, rfl, rfl⟩, rfl⟩

/-- Closed witness for C10 at a concrete model-less trainer state. -/
theorem train_without_model_succeeds_witness :
    (∃ m, (MicroMentorTrainer.train ⟨[], none, none⟩ ⟨fun _ => 0, fun _ => 0⟩
        id [] [] [] 1).1.model = some m ∧ m.compile_config.isSome = true) ∧
    ((MicroMentorTrainer.train ⟨[], none, none⟩ ⟨fun _ => 0, fun _ => 0⟩
        id [] [] [] 1).1.history =
      some (MicroMentorTrainer.train ⟨[], none, none⟩ ⟨fun _ => 0, fun _ => 0⟩
        id [] [] [] 1).2) :=
  train_without_model_succeeds ⟨[], none, none⟩ ⟨fun _ => 0, fun _ => 0⟩
    id [] [] [] 1 rfl

/-- C9: only the `output_path` key of the configuration is ever read.  For
any two trainer states agreeing on model, history and the `output_path`
lookup — however their `epochs`, `batch_size` or other keys differ — every
operation produces the same observable result; in particular `train` uses
its `epochs` argument and the hardcoded batch size 32. -/
theorem only_output_path_read (st1 st2 : TrainerState) (fs : FS) (rng : RNG)
    (upd : ℚ → ℚ) (ms : List (String × List ℚ)) (p h : List ℚ) (e : Nat)
    (convert : KerasModel → EdgeConverterConfig → List Nat)
    (s1 s2 : KerasModel → List Nat) (clock : Nat → ℚ)
    (hm : st1.model = st2.model) (hh : st1.history = st2.history)
    (hp : JObject.get st1.config "output_path" =
      JObject.get st2.config "output_path") :
    ((MicroMentorTrainer.create_model st1 p h).2 =
      (MicroMentorTrainer.create_model st2 p h).2) ∧
    ((MicroMentorTrainer.prepare_data st1 rng).2 =
      (MicroMentorTrainer.prepare_data st2 rng).2) ∧
    ((MicroMentorTrainer.train st1 rng upd ms p h e).1.model =
      (MicroMentorTrainer.train st2 rng upd ms p h e).1.model) ∧
    ((MicroMentorTrainer.train st1 rng upd ms p h e).2 =
      (MicroMentorTrainer.train st2 rng upd ms p h e).2) ∧
    ((MicroMentorTrainer.train st1 rng upd ms p h e).2.epochs = e) ∧
    ((MicroMentorTrainer.train st1 rng upd ms p h e).2.batch_size = 32) ∧
    ((MicroMentorTrainer.optimize_for_edge st1 fs convert).map (fun r => r.2) =
      (MicroMentorTrainer.optimize_for_edge st2 fs convert).map (fun r => r.2)) ∧
    ((MicroMentorTrainer.save_model st1 fs s1 s2).map (fun r => r.2) =
      (MicroMentorTrainer.save_model st2 fs s1 s2).map (fun r => r.2)) ∧
    ((MicroMentorTrainer.evaluate_latency st1 clock).map (fun r => r.2) =
      (MicroMentorTrainer.evaluate_latency st2 clock).map (fun r => r.2)) := by
  obtain ⟨c1, mo1, hi1⟩ := st1
  obtain ⟨c2, mo2, hi2⟩ := st2
  replace hm : mo1 = mo2 := hm
  replace hh : hi1 = hi2 := hh
  replace hp : JObject.get c1 "output_path" = JObject.get c2 "output_path" := hp
  subst hm; subst hh
  refine ⟨rfl, rfl, ?_, ?_, ?_, ?_, ?_, ?_, ?_⟩
  · cases mo1 <;> rfl
  · cases mo1 <;> rfl
  · cases mo1 <;> rfl
  · cases mo1 <;> rfl
  · cases mo1 with
    | none => rfl
    | some m =>
      rcases hg : JObject.get c2 "output_path" with _ | pr
      · rw [hg] at hp
        simp [MicroMentorTrainer.optimize_for_edge, hp, hg]
      · rw [hg] at hp
        cases pr <;> simp [MicroMentorTrainer.optimize_for_edge, hp, hg]
  · cases mo1 with
    | none => rfl
    | some m =>
      rcases hg : JObject.get c2 "output_path" with _ | pr
      · rw [hg] at hp
        simp [MicroMentorTrainer.save_model, hp, hg]
      · rw [hg] at hp
        cases pr <;> simp [MicroMentorTrainer.save_model, hp, hg]
  · cases mo1 <;> rfl

/-- Closed witness for C9: two configurations sharing `output_path` but
with different `epochs` yield the same edge-optimization result. -/
theorem only_output_path_read_witness :
    (MicroMentorTrainer.optimize_for_edge
        ⟨[("output_path", .jstr "models"), ("epochs", .jnum 5)],
          some default, none⟩ [] (fun _ _ => [])).map (fun r => r.2) =
      (MicroMentorTrainer.optimize_for_edge
        ⟨[("output_path", .jstr "models"), ("epochs", .jnum 7)],
          some default, none⟩ [] (fun _ _ => [])).map (fun r => r.2) :=
  (only_output_path_read
    ⟨[("output_path", .jstr "models"), ("epochs", .jnum 5)], some default, none⟩
    ⟨[("output_path", .jstr "models"), ("epochs", .jnum 7)], some default, none⟩
    [] ⟨fun _ => 0, fun _ => 0⟩ id [] [] [] 2 (fun _ _ => [])
    (fun _ => []) (fun _ => []) (fun _ => 0)
    rfl rfl rfl).2.2.2.2.2.2.1

end MicroMentor
